import Mathlib

/-!
Shallow embedding of the Udagram CloudFormation orchestration scripts
(create.py and delete.py).  Remote interactions are modelled by an explicit
environment describing what the remote services would answer, and each
entry point is a pure function from that environment to an exit code
together with a trace of the remote operations it issued, in order.
-/

/-- Configuration constant NETWORK_STACK_NAME shared by create.py and delete.py. -/
def NETWORK_STACK_NAME : String := "udagram-network"

/-- Configuration constant APP_STACK_NAME shared by create.py and delete.py. -/
def APP_STACK_NAME : String := "udagram-app"

/-- Configuration constant NETWORK_TEMPLATE from create.py. -/
def NETWORK_TEMPLATE : String := "network.yml"

/-- Configuration constant NETWORK_PARAMETERS from create.py. -/
def NETWORK_PARAMETERS : String := "network-parameters.json"

/-- Configuration constant APP_TEMPLATE from create.py. -/
def APP_TEMPLATE : String := "udagram.yml"

/-- Configuration constant APP_PARAMETERS from create.py. -/
def APP_PARAMETERS : String := "udagram-parameters.json"

/-- Configuration constant STATIC_CONTENT_FILE from create.py. -/
def STATIC_CONTENT_FILE : String := "static-content/index.html"

/-- WaiterConfig Delay value passed to the waiter in both scripts. -/
def WAITER_DELAY : Nat := 30

/-- WaiterConfig MaxAttempts value passed to the waiter in both scripts. -/
def WAITER_MAX_ATTEMPTS : Nat := 120

/-- One entry of a CloudFormation stack output list: an OutputKey and an
OutputValue, as scanned by get_stack_output. -/
structure StackOutput where
  outputKey : String
  outputValue : String
deriving DecidableEq, Repr

/-- Result of a describe_stacks call as seen by the scripts: either a stack
record with its StackStatus and Outputs list, or a ClientError whose message
contains the does-not-exist marker, or any other ClientError. -/
inductive DescribeResult where
  | ok (status : String) (outputs : List StackOutput)
  | notFound
  | otherError
deriving DecidableEq, Repr

/-- One remote operation issued by a script run.  Traces of these record
both reads (describes, polls) and mutations (creates, deletes, uploads). -/
inductive Op where
  | describeStacks (name : String)
  | createStack (name : String)
  | waitCreate (name : String)
  | deleteStack (name : String)
  | waitDelete (name : String)
  | describeStackEvents (name : String)
  | deleteAllObjects (bucket : String)
  | deleteAllVersions (bucket : String)
  | uploadFile (bucket : String) (key : String)
deriving DecidableEq, Repr

/-- Classifies the operations that mutate remote state, as opposed to
reads and polls. -/
def isMutation : Op → Bool
  | .createStack _ => true
  | .deleteStack _ => true
  | .deleteAllObjects _ => true
  | .deleteAllVersions _ => true
  | .uploadFile _ _ => true
  | _ => false

/-- Classifies stack-creation requests. -/
def isCreateOp : Op → Bool
  | .createStack _ => true
  | _ => false

/-- Classifies stack-deletion requests. -/
def isDeleteOp : Op → Bool
  | .deleteStack _ => true
  | _ => false

/-- Classifies object uploads. -/
def isUpload : Op → Bool
  | .uploadFile _ _ => true
  | _ => false

/-- True when the trace contains no remote mutation at all. -/
def noMutations (t : List Op) : Bool := t.all (fun op => !isMutation op)

/-- True when the trace contains no stack-creation request. -/
def noCreateOps (t : List Op) : Bool := t.all (fun op => !isCreateOp op)

/-- True when the trace contains no stack-deletion request. -/
def noDeleteOps (t : List Op) : Bool := t.all (fun op => !isDeleteOp op)

/-- True when the trace contains an upload attempt. -/
def hasUploadOp (t : List Op) : Bool := t.any isUpload

/-- Index of the first occurrence of an operation in a trace. -/
def opIdx (o : Op) : List Op → Option Nat
  | [] => none
  | a :: rest => if a = o then some 0 else (opIdx o rest).map Nat.succ

/-- True when both operations occur in the trace and the first occurrence
of a is strictly earlier than the first occurrence of b. -/
def precedes (t : List Op) (a b : Op) : Bool :=
  match opIdx a t, opIdx b t with
  | some i, some j => decide (i < j)
  | _, _ => false

/-- Linear scan of a stack output list for a key, as the for-loop in
get_stack_output does: first matching OutputKey wins, absent key gives
the absent value. -/
def lookupOutput : List StackOutput → String → Option String
  | [], _ => none
  | o :: rest, key =>
      if o.outputKey = key then some o.outputValue else lookupOutput rest key

/-- Embedding of get_stack_output, identical in create.py and delete.py:
on a successful describe it linearly scans the Outputs list (defaulting to
the empty list) and returns None when the key is absent; on any
ClientError it reports the error and returns None.  It is total, so it
never raises. -/
def get_stack_output (d : DescribeResult) (key : String) : Option String :=
  match d with
  | .ok _ outputs => lookupOutput outputs key
  | .notFound => none
  | .otherError => none

/-- Emptiness of a string, computed over its character list. -/
def strEmpty (s : String) : Bool := s.data.isEmpty

/-- Python truthiness of an optional string, as used by the
`if s3_bucket_name:` checks: None and the empty string are falsy. -/
def truthyStr : Option String → Bool
  | none => false
  | some s => !strEmpty s

namespace Create

/-- Embedding of stack_exists in create.py: a successful describe of any
record (whatever its status, DELETE_COMPLETE included) gives True, a
does-not-exist ClientError gives False, and any other ClientError is
re-raised (modelled as the error case). -/
def stack_exists (d : DescribeResult) : Except Unit Bool :=
  match d with
  | .ok _ _ => .ok true
  | .notFound => .ok false
  | .otherError => .error ()

end Create

namespace Delete

/-- Embedding of stack_exists in delete.py: a successful describe returns
False when StackStatus is DELETE_COMPLETE and True otherwise, a
does-not-exist ClientError gives False, and any other ClientError is
re-raised (modelled as the error case). -/
def stack_exists (d : DescribeResult) : Except Unit Bool :=
  match d with
  | .ok status _ => if status = "DELETE_COMPLETE" then .ok false else .ok true
  | .notFound => .ok false
  | .otherError => .error ()

end Delete

/-- One CloudFormation stack event as consumed by the failure diagnostics:
logical resource id, resource status string, and an optional failure
reason. -/
structure StackEvent where
  logicalResourceId : String
  resourceStatus : String
  resourceStatusReason : Option String
deriving DecidableEq, Repr

/-- True when the FAILED marker occurs somewhere in the status string, the
check the event dump performs with the Python `in` operator. -/
def statusHasFAILED (s : String) : Bool :=
  (s.splitOn "FAILED").length > 1

/-- Embedding of the diagnostic dump inside the WaiterError handler of both
wait functions: take the first 10 stack events and keep those whose
resource status contains FAILED. -/
def failedEventDump (events : List StackEvent) : List StackEvent :=
  (events.take 10).filter (fun e => statusHasFAILED e.resourceStatus)

/-- What one status poll of the remote stack observes: a state the waiter
keeps polling on, a terminal success state, or a terminal failure state. -/
inductive PollStatus where
  | pending
  | success
  | failure
deriving DecidableEq, Repr

/-- Outcome of a bounded polling wait. -/
inductive WaitOutcome where
  | success
  | failure
  | timeout
deriving DecidableEq, Repr

/-- Modelled from the spec: the polling loop of await_terminal lives in the
SDK waiter, not in this repository; following the spec it polls the status
stream one attempt at a time, returns success or failure on a terminal
state, and times out when the attempt budget is exhausted. -/
def awaitFrom (poll : Nat → PollStatus) : Nat → Nat → WaitOutcome
  | _, 0 => .timeout
  | attempt, fuel + 1 =>
      match poll attempt with
      | .success => .success
      | .failure => .failure
      | .pending => awaitFrom poll (attempt + 1) fuel

/-- Modelled from the spec: await_terminal polls from attempt 0 with the
given maximum number of attempts. -/
def await_terminal (poll : Nat → PollStatus) (maxAttempts : Nat) : WaitOutcome :=
  awaitFrom poll 0 maxAttempts

/-- Number of polls the bounded wait actually performs. -/
def pollsFrom (poll : Nat → PollStatus) : Nat → Nat → Nat
  | _, 0 => 0
  | attempt, fuel + 1 =>
      match poll attempt with
      | .pending => 1 + pollsFrom poll (attempt + 1) fuel
      | _ => 1

/-- Embedding of wait_for_stack_creation in create.py: run the
stack_create_complete waiter with Delay 30 and MaxAttempts 120; on success
return True with no diagnostics, on WaiterError return False after dumping
the failure-tagged events among the first 10. -/
def wait_for_stack_creation (poll : Nat → PollStatus) (events : List StackEvent) :
    Bool × List StackEvent :=
  match await_terminal poll WAITER_MAX_ATTEMPTS with
  | .success => (true, [])
  | .failure => (false, failedEventDump events)
  | .timeout => (false, failedEventDump events)

/-- Embedding of wait_for_stack_deletion in delete.py, textually the same
handling with the stack_delete_complete waiter. -/
def wait_for_stack_deletion (poll : Nat → PollStatus) (events : List StackEvent) :
    Bool × List StackEvent :=
  match await_terminal poll WAITER_MAX_ATTEMPTS with
  | .success => (true, [])
  | .failure => (false, failedEventDump events)
  | .timeout => (false, failedEventDump events)

/-- Contents of an S3 bucket: its current objects and its object versions. -/
structure Bucket where
  objects : List String
  versions : List String
deriving DecidableEq, Repr

/-- Embedding of empty_s3_bucket in delete.py over a bucket that may not
exist (none) and a flag for a ClientError other than NoSuchBucket raised by
the delete calls.  A missing bucket makes the first delete call raise
NoSuchBucket, which the handler treats as success; otherwise all objects
are deleted and then all object versions, and the result reports success.
Returns the reported result, the remaining bucket state, and the trace of
attempted bulk deletions. -/
def empty_s3_bucket (bucketName : String) (b : Option Bucket) (s3Fails : Bool) :
    Bool × Option Bucket × List Op :=
  match b with
  | none => (true, none, [Op.deleteAllObjects bucketName])
  | some bk =>
      if s3Fails then
        (false, some bk, [Op.deleteAllObjects bucketName])
      else
        (true, some ⟨[], []⟩,
          [Op.deleteAllObjects bucketName, Op.deleteAllVersions bucketName])

/-- Outcome of the single s3.upload_file call in upload_to_s3: accepted,
or raising FileNotFoundError, or raising a ClientError. -/
inductive UploadResult where
  | accepted
  | fileNotFound
  | clientError
deriving DecidableEq, Repr

/-- Embedding of upload_to_s3 in create.py: True on an accepted upload,
False after reporting a missing local file or a remote rejection. -/
def upload_to_s3 (r : UploadResult) : Bool :=
  match r with
  | .accepted => true
  | .fileNotFound => false
  | .clientError => false

/-- Lowercasing of the answer string, modelled character by character over
the underlying character list. -/
def lowerChars (l : List Char) : List Char := l.map Char.toLower

/-- Stripping of surrounding whitespace, modelled over the character list:
drop leading whitespace, then drop trailing whitespace. -/
def stripChars (l : List Char) : List Char :=
  ((l.dropWhile Char.isWhitespace).reverse.dropWhile Char.isWhitespace).reverse

/-- Embedding of confirm_deletion in delete.py: the answer is lowercased
and stripped of surrounding whitespace, and accepted exactly when the
result is yes or y (membership in the two-element list of the source). -/
def confirm_deletion (answer : String) : Bool :=
  let r := stripChars (lowerChars answer.data)
  decide (r = "yes".data ∨ r = "y".data)

/-- Environment of one run of create.py: what describe_stacks answers
before any stack is created (describePre) and after creation has been
initiated (describePost), which local files are readable, which
create_stack submissions the service accepts, which waits reach terminal
success, and the outcome of the single upload call. -/
structure CreateEnv where
  describePre : String → DescribeResult
  describePost : String → DescribeResult
  fileReadable : String → Bool
  createAccepted : String → Bool
  waitSucceeds : String → Bool
  uploadResult : UploadResult

/-- Embedding of main in create.py: the returned Nat is the process exit
code and the list is the trace of remote operations in issue order.  The
model mirrors the source line by line: the two stack_exists preconditions
(a re-raised describe error is caught by the top-level handler and exits
1), the template and parameter reads that exit 1 when missing, the
network create and wait, the network output display, the application
create and wait, the application output display, the bucket-name lookup,
the non-fatal upload, and the load-balancer lookup of the final summary. -/
def create_main (env : CreateEnv) : Nat × List Op :=
  let t0 := [Op.describeStacks NETWORK_STACK_NAME]
  match Create.stack_exists (env.describePre NETWORK_STACK_NAME) with
  | .error _ => (1, t0)
  | .ok true => (1, t0)
  | .ok false =>
  let t1 := t0 ++ [Op.describeStacks APP_STACK_NAME]
  match Create.stack_exists (env.describePre APP_STACK_NAME) with
  | .error _ => (1, t1)
  | .ok true => (1, t1)
  | .ok false =>
  if env.fileReadable NETWORK_TEMPLATE = false then (1, t1) else
  if env.fileReadable NETWORK_PARAMETERS = false then (1, t1) else
  let t2 := t1 ++ [Op.createStack NETWORK_STACK_NAME]
  if env.createAccepted NETWORK_STACK_NAME = false then (1, t2) else
  let t3 := t2 ++ [Op.waitCreate NETWORK_STACK_NAME]
  if env.waitSucceeds NETWORK_STACK_NAME = false then
    (1, t3 ++ [Op.describeStackEvents NETWORK_STACK_NAME]) else
  let t4 := t3 ++ [Op.describeStacks NETWORK_STACK_NAME]
  if env.fileReadable APP_TEMPLATE = false then (1, t4) else
  if env.fileReadable APP_PARAMETERS = false then (1, t4) else
  let t5 := t4 ++ [Op.createStack APP_STACK_NAME]
  if env.createAccepted APP_STACK_NAME = false then (1, t5) else
  let t6 := t5 ++ [Op.waitCreate APP_STACK_NAME]
  if env.waitSucceeds APP_STACK_NAME = false then
    (1, t6 ++ [Op.describeStackEvents APP_STACK_NAME]) else
  let t7 := t6 ++ [Op.describeStacks APP_STACK_NAME]
  let t8 := t7 ++ [Op.describeStacks APP_STACK_NAME]
  let bucketName := get_stack_output (env.describePost APP_STACK_NAME) "S3BucketName"
  let t9 := t8 ++
    (match bucketName with
     | some b => if strEmpty b then [] else [Op.uploadFile b "index.html"]
     | none => [])
  let t10 := t9 ++ [Op.describeStacks APP_STACK_NAME]
  (0, t10)

/-- Environment of one run of delete.py: the operator answer to the
confirmation prompt, what describe_stacks answers, the state of the
application bucket, whether the bulk S3 deletions raise, which
delete_stack submissions are accepted, and which waits reach terminal
success. -/
structure DeleteEnv where
  answer : String
  describe : String → DescribeResult
  bucket : Option Bucket
  s3Fails : Bool
  deleteAccepted : String → Bool
  waitSucceeds : String → Bool

/-- Embedding of main in delete.py: the returned Nat is the process exit
code and the list the trace of remote operations.  Mirrors the source:
the confirmation prompt (declined exits 0 before any remote call), the
two stack_exists queries (application first), the exit 0 when neither
stack exists, the bucket emptying gated on a truthy bucket name (a failed
emptying exits 1 before any deletion request), the application stack
delete and wait, then the network stack delete and wait. -/
def delete_main (env : DeleteEnv) : Nat × List Op :=
  if confirm_deletion env.answer = false then (0, []) else
  let t0 := [Op.describeStacks APP_STACK_NAME]
  match Delete.stack_exists (env.describe APP_STACK_NAME) with
  | .error _ => (1, t0)
  | .ok appEx =>
  let t1 := t0 ++ [Op.describeStacks NETWORK_STACK_NAME]
  match Delete.stack_exists (env.describe NETWORK_STACK_NAME) with
  | .error _ => (1, t1)
  | .ok netEx =>
  if appEx = false ∧ netEx = false then (0, t1) else
  let step1 :=
    if appEx then
      let t2 := t1 ++ [Op.describeStacks APP_STACK_NAME]
      let bucketName := get_stack_output (env.describe APP_STACK_NAME) "S3BucketName"
      match bucketName with
      | some b =>
          if strEmpty b then (true, t2)
          else
            let r := empty_s3_bucket b env.bucket env.s3Fails
            (r.1, t2 ++ r.2.2)
      | none => (true, t2)
    else (true, t1)
  if step1.1 = false then (1, step1.2) else
  let tA := step1.2
  let step2 :=
    if appEx then
      let tB := tA ++ [Op.deleteStack APP_STACK_NAME]
      if env.deleteAccepted APP_STACK_NAME = false then (1, tB) else
      let tC := tB ++ [Op.waitDelete APP_STACK_NAME]
      if env.waitSucceeds APP_STACK_NAME = false then
        (1, tC ++ [Op.describeStackEvents APP_STACK_NAME])
      else (0, tC)
    else (0, tA)
  if step2.1 = 1 then step2 else
  let tD := step2.2
  if netEx then
    let tE := tD ++ [Op.deleteStack NETWORK_STACK_NAME]
    if env.deleteAccepted NETWORK_STACK_NAME = false then (1, tE) else
    let tF := tE ++ [Op.waitDelete NETWORK_STACK_NAME]
    if env.waitSucceeds NETWORK_STACK_NAME = false then
      (1, tF ++ [Op.describeStackEvents NETWORK_STACK_NAME])
    else (0, tF)
  else (0, tD)


section Theorems

/-- Helper: the linear scan returns none when no entry carries the key. -/
theorem lookupOutput_eq_none (outs : List StackOutput) (key : String)
    (h : ∀ o ∈ outs, o.outputKey ≠ key) : lookupOutput outs key = none := by
  induction outs with
  | nil => rfl
  | cons o rest ih =>
      have hk : o.outputKey ≠ key := h o (List.mem_cons_self o rest)
      simp only [lookupOutput, if_neg hk]
      exact ih (fun x hx => h x (List.mem_cons_of_mem o hx))

/-- C2: the existence check differs by direction.  The create-flow
stack_exists answers true for any record a describe can return, whatever
its status (DELETE_COMPLETE included), while the delete-flow stack_exists
answers false exactly for an absent record or one in DELETE_COMPLETE and
true for every other status. -/
theorem stack_exists_direction_differs (st : String) (outs : List StackOutput)
    (h : st ≠ "DELETE_COMPLETE") :
    Create.stack_exists (DescribeResult.ok st outs) = .ok true ∧
    Create.stack_exists (DescribeResult.ok "DELETE_COMPLETE" outs) = .ok true ∧
    Create.stack_exists DescribeResult.notFound = .ok false ∧
    Delete.stack_exists (DescribeResult.ok st outs) = .ok true ∧
    Delete.stack_exists (DescribeResult.ok "DELETE_COMPLETE" outs) = .ok false ∧
    Delete.stack_exists DescribeResult.notFound = .ok false := by
  refine ⟨rfl, rfl, rfl, ?_, ?_, rfl⟩
  · simp [Delete.stack_exists, h]
  · simp [Delete.stack_exists]

/-- Witness for C2 at a failed stack status: a CREATE_FAILED record blocks
a new create but still counts as existing only on the create side. -/
theorem stack_exists_direction_differs_witness :
    Create.stack_exists (DescribeResult.ok "CREATE_FAILED" []) = .ok true ∧
    Create.stack_exists (DescribeResult.ok "DELETE_COMPLETE" []) = .ok true ∧
    Create.stack_exists DescribeResult.notFound = .ok false ∧
    Delete.stack_exists (DescribeResult.ok "CREATE_FAILED" []) = .ok true ∧
    Delete.stack_exists (DescribeResult.ok "DELETE_COMPLETE" []) = .ok false ∧
    Delete.stack_exists DescribeResult.notFound = .ok false :=
  stack_exists_direction_differs "CREATE_FAILED" [] (by decide)

/-- C4: get_stack_output scans the output list linearly and returns the
absent value without raising when the key is not present, when the stack
has no outputs, and when the describe call fails with either kind of
ClientError. -/
theorem get_stack_output_absent (st key : String) (outs : List StackOutput)
    (h : ∀ o ∈ outs, o.outputKey ≠ key) :
    get_stack_output (DescribeResult.ok st outs) key = none ∧
    get_stack_output (DescribeResult.ok st []) key = none ∧
    get_stack_output DescribeResult.notFound key = none ∧
    get_stack_output DescribeResult.otherError key = none := by
  refine ⟨?_, rfl, rfl, rfl⟩
  simpa [get_stack_output] using lookupOutput_eq_none outs key h

/-- Witness for C4 on a stack whose output list lacks the requested key. -/
theorem get_stack_output_absent_witness :
    get_stack_output (DescribeResult.ok "CREATE_COMPLETE" [⟨"LoadBalancerURL", "http://lb"⟩])
        "S3BucketName" = none ∧
    get_stack_output (DescribeResult.ok "CREATE_COMPLETE" []) "S3BucketName" = none ∧
    get_stack_output DescribeResult.notFound "S3BucketName" = none ∧
    get_stack_output DescribeResult.otherError "S3BucketName" = none :=
  get_stack_output_absent "CREATE_COMPLETE" "S3BucketName"
    [⟨"LoadBalancerURL", "http://lb"⟩] (by decide)

/-- C5: empty_s3_bucket deletes every current object and then every object
version (the versions deletion comes strictly after the objects deletion
in the issued trace), reports success, treats a nonexistent bucket as
success, and is idempotent in that emptying a bucket with zero objects and
zero versions also reports success. -/
theorem empty_s3_bucket_empties_then_succeeds (name : String) (objs vers : List String) :
    empty_s3_bucket name (some ⟨objs, vers⟩) false =
      (true, some ⟨[], []⟩, [Op.deleteAllObjects name, Op.deleteAllVersions name]) ∧
    precedes (empty_s3_bucket name (some ⟨objs, vers⟩) false).2.2
      (Op.deleteAllObjects name) (Op.deleteAllVersions name) = true ∧
    empty_s3_bucket name none false = (true, none, [Op.deleteAllObjects name]) ∧
    (empty_s3_bucket name (some ⟨[], []⟩) false).1 = true := by
  refine ⟨rfl, ?_, rfl, rfl⟩
  simp [empty_s3_bucket, precedes, opIdx]

/-- Helper: the bounded wait performs at most fuel polls. -/
theorem pollsFrom_le (poll : Nat → PollStatus) :
    ∀ (fuel attempt : Nat), pollsFrom poll attempt fuel ≤ fuel := by
  intro fuel
  induction fuel with
  | zero => intro attempt; simp [pollsFrom]
  | succ n ih =>
      intro attempt
      simp only [pollsFrom]
      cases h : poll attempt
      · have := ih (attempt + 1)
        simp only [h]
        omega
      · simp [h]
      · simp [h]

/-- Helper: the diagnostic dump reports at most 10 events. -/
theorem failedEventDump_le (events : List StackEvent) :
    (failedEventDump events).length ≤ 10 := by
  calc (failedEventDump events).length
      ≤ (events.take 10).length := List.length_filter_le _ _
    _ ≤ 10 := List.length_take_le _ _

/-- C9: the poll loop awaiting a terminal state is bounded: with the
configured WaiterConfig of 120 attempts at a 30 second delay it performs
at most 120 polls (so it terminates rather than looping forever), both
wait wrappers report success exactly when the wait reached terminal
success (so timeout and failure are distinct from success), and on
failure the dumped failure-tagged diagnostic events are bounded by 10. -/
theorem wait_loops_bounded (poll : Nat → PollStatus) (events : List StackEvent) :
    WAITER_DELAY = 30 ∧ WAITER_MAX_ATTEMPTS = 120 ∧
    pollsFrom poll 0 WAITER_MAX_ATTEMPTS ≤ WAITER_MAX_ATTEMPTS ∧
    ((wait_for_stack_creation poll events).1 = true ↔
      await_terminal poll WAITER_MAX_ATTEMPTS = .success) ∧
    (wait_for_stack_creation poll events).2.length ≤ 10 ∧
    ((wait_for_stack_deletion poll events).1 = true ↔
      await_terminal poll WAITER_MAX_ATTEMPTS = .success) ∧
    (wait_for_stack_deletion poll events).2.length ≤ 10 := by
  refine ⟨rfl, rfl, pollsFrom_le poll _ 0, ?_, ?_, ?_, ?_⟩
  · cases h : await_terminal poll WAITER_MAX_ATTEMPTS <;>
      simp [wait_for_stack_creation, h]
  · cases h : await_terminal poll WAITER_MAX_ATTEMPTS <;>
      simp [wait_for_stack_creation, h, failedEventDump_le]
  · cases h : await_terminal poll WAITER_MAX_ATTEMPTS <;>
      simp [wait_for_stack_deletion, h]
  · cases h : await_terminal poll WAITER_MAX_ATTEMPTS <;>
      simp [wait_for_stack_deletion, h, failedEventDump_le]

/-- C10: the interactive confirmation accepts exactly yes or y after
lowercasing and stripping surrounding whitespace, and on any other answer
the delete flow exits with code 0 with an empty remote trace: no
describe, no bucket emptying, no deletion request. -/
theorem confirm_gate_exact (env : DeleteEnv) (r : String)
    (h1 : stripChars (lowerChars env.answer.data) ≠ "yes".data)
    (h2 : stripChars (lowerChars env.answer.data) ≠ "y".data) :
    (confirm_deletion r = true ↔
      (stripChars (lowerChars r.data) = "yes".data ∨
       stripChars (lowerChars r.data) = "y".data)) ∧
    confirm_deletion env.answer = false ∧
    delete_main env = (0, []) := by
  have hc : confirm_deletion env.answer = false := by
    simp [confirm_deletion, h1, h2]
  refine ⟨?_, hc, ?_⟩
  · simp [confirm_deletion]
  · simp [delete_main, hc]

/-- Witness for C10: the answer NO (which lowercases and strips to no) is
rejected, the run exits 0 with no remote operation, while the answer Y
with surrounding blanks is accepted. -/
theorem confirm_gate_exact_witness :
    (confirm_deletion " Y " = true ↔
      (stripChars (lowerChars (" Y ").data) = "yes".data ∨
       stripChars (lowerChars (" Y ").data) = "y".data)) ∧
    confirm_deletion "NO" = false ∧
    delete_main
      { answer := "NO", describe := fun _ => DescribeResult.notFound,
        bucket := none, s3Fails := false,
        deleteAccepted := fun _ => true, waitSucceeds := fun _ => true } = (0, []) :=
  confirm_gate_exact
    { answer := "NO", describe := fun _ => DescribeResult.notFound,
      bucket := none, s3Fails := false,
      deleteAccepted := fun _ => true, waitSucceeds := fun _ => true }
    " Y " (by decide) (by decide)

/-- Environment in which the network stack already exists in a completed
state while nothing else is present. -/
def envExistingNetwork : CreateEnv where
  describePre := fun _ => DescribeResult.ok "CREATE_COMPLETE" []
  describePost := fun _ => DescribeResult.notFound
  fileReadable := fun _ => true
  createAccepted := fun _ => true
  waitSucceeds := fun _ => true
  uploadResult := UploadResult.accepted

/-- C1: when the network stack or the application stack already exists in
a non-deleted state, the create flow exits with code 1 and its trace
contains no stack-creation request for either stack. -/
theorem create_refuses_existing_stacks (env : CreateEnv)
    (h : (∃ st outs, st ≠ "DELETE_COMPLETE" ∧
            env.describePre NETWORK_STACK_NAME = DescribeResult.ok st outs) ∨
         (∃ st outs, st ≠ "DELETE_COMPLETE" ∧
            env.describePre APP_STACK_NAME = DescribeResult.ok st outs)) :
    (create_main env).1 = 1 ∧ noCreateOps (create_main env).2 = true := by
  rcases h with ⟨st, outs, _, hN⟩ | ⟨st, outs, _, hA⟩
  · simp [create_main, Create.stack_exists, hN, noCreateOps, isCreateOp]
  · cases hN : env.describePre NETWORK_STACK_NAME <;>
      simp [create_main, Create.stack_exists, hN, hA, noCreateOps, isCreateOp]

/-- Witness for C1: with the network stack reported as CREATE_COMPLETE the
run exits 1 and issues no create. -/
theorem create_refuses_existing_stacks_witness :
    (create_main envExistingNetwork).1 = 1 ∧
    noCreateOps (create_main envExistingNetwork).2 = true :=
  create_refuses_existing_stacks envExistingNetwork
    (Or.inl ⟨"CREATE_COMPLETE", [], by decide, rfl⟩)

/-- Environment in which the operator confirms but no stack is found. -/
def envNothingToDelete : DeleteEnv where
  answer := "yes"
  describe := fun _ => DescribeResult.notFound
  bucket := none
  s3Fails := false
  deleteAccepted := fun _ => true
  waitSucceeds := fun _ => true

/-- C3: when the operator confirms and neither the application stack nor
the network stack exists, the delete flow exits with code 0 and issues no
remote mutation (no bucket emptying, no stack deletion request) — its
trace holds only the two existence describes. -/
theorem delete_noop_when_no_stacks (env : DeleteEnv)
    (hc : confirm_deletion env.answer = true)
    (hA : Delete.stack_exists (env.describe APP_STACK_NAME) = .ok false)
    (hN : Delete.stack_exists (env.describe NETWORK_STACK_NAME) = .ok false) :
    (delete_main env).1 = 0 ∧ noMutations (delete_main env).2 = true := by
  simp [delete_main, hc, hA, hN, noMutations, isMutation]

/-- Witness for C3: confirmed deletion with both stacks absent exits 0
without mutating anything. -/
theorem delete_noop_when_no_stacks_witness :
    (delete_main envNothingToDelete).1 = 0 ∧
    noMutations (delete_main envNothingToDelete).2 = true :=
  delete_noop_when_no_stacks envNothingToDelete (by decide) rfl rfl

/-- Helper: the two stack names are distinct. -/
theorem app_ne_network : (APP_STACK_NAME = NETWORK_STACK_NAME) = False := by
  simp [APP_STACK_NAME, NETWORK_STACK_NAME]

/-- Helper: the two stack names are distinct, other orientation. -/
theorem network_ne_app : (NETWORK_STACK_NAME = APP_STACK_NAME) = False := by
  simp [NETWORK_STACK_NAME, APP_STACK_NAME]

/-- Preconditions shared by the create-flow scenarios: neither stack is
reported as existing, and the four template and parameter files are
readable. -/
def CreatePreOk (env : CreateEnv) : Prop :=
  env.describePre NETWORK_STACK_NAME = DescribeResult.notFound ∧
  env.describePre APP_STACK_NAME = DescribeResult.notFound ∧
  env.fileReadable NETWORK_TEMPLATE = true ∧
  env.fileReadable NETWORK_PARAMETERS = true ∧
  env.fileReadable APP_TEMPLATE = true ∧
  env.fileReadable APP_PARAMETERS = true

/-- C6: the create flow is strictly sequential and gated.  When every
stage succeeds, the issued trace has the network stack creation strictly
before the network wait, the network wait strictly before the application
stack creation, and that before the application wait (the trace is a
single sequence, so no two provisioning operations overlap).  A create
submission failure or wait failure at either stage exits with code 1
before any later stage operation is issued. -/
theorem create_sequential_and_gated (env : CreateEnv) (hpre : CreatePreOk env) :
    (env.createAccepted NETWORK_STACK_NAME = true →
     env.waitSucceeds NETWORK_STACK_NAME = true →
     env.createAccepted APP_STACK_NAME = true →
     env.waitSucceeds APP_STACK_NAME = true →
       (create_main env).1 = 0 ∧
       precedes (create_main env).2 (Op.createStack NETWORK_STACK_NAME)
         (Op.waitCreate NETWORK_STACK_NAME) = true ∧
       precedes (create_main env).2 (Op.waitCreate NETWORK_STACK_NAME)
         (Op.createStack APP_STACK_NAME) = true ∧
       precedes (create_main env).2 (Op.createStack APP_STACK_NAME)
         (Op.waitCreate APP_STACK_NAME) = true) ∧
    (env.createAccepted NETWORK_STACK_NAME = false →
       (create_main env).1 = 1 ∧
       Op.waitCreate NETWORK_STACK_NAME ∉ (create_main env).2 ∧
       Op.createStack APP_STACK_NAME ∉ (create_main env).2) ∧
    (env.createAccepted NETWORK_STACK_NAME = true →
     env.waitSucceeds NETWORK_STACK_NAME = false →
       (create_main env).1 = 1 ∧
       Op.createStack APP_STACK_NAME ∉ (create_main env).2) ∧
    (env.createAccepted NETWORK_STACK_NAME = true →
     env.waitSucceeds NETWORK_STACK_NAME = true →
     env.createAccepted APP_STACK_NAME = false →
       (create_main env).1 = 1 ∧
       Op.waitCreate APP_STACK_NAME ∉ (create_main env).2 ∧
       hasUploadOp (create_main env).2 = false) ∧
    (env.createAccepted NETWORK_STACK_NAME = true →
     env.waitSucceeds NETWORK_STACK_NAME = true →
     env.createAccepted APP_STACK_NAME = true →
     env.waitSucceeds APP_STACK_NAME = false →
       (create_main env).1 = 1 ∧
       hasUploadOp (create_main env).2 = false) := by
  obtain ⟨h1, h2, h3, h4, h5, h6⟩ := hpre
  refine ⟨?_, ?_, ?_, ?_, ?_⟩
  · intro hcN hwN hcA hwA
    simp [create_main, Create.stack_exists, h1, h2, h3, h4, h5, h6,
      hcN, hwN, hcA, hwA, precedes, opIdx, List.append_assoc,
      app_ne_network, network_ne_app]
  · intro hcN
    simp [create_main, Create.stack_exists, h1, h2, h3, h4, hcN,
      app_ne_network, network_ne_app]
  · intro hcN hwN
    simp [create_main, Create.stack_exists, h1, h2, h3, h4, hcN, hwN,
      app_ne_network, network_ne_app]
  · intro hcN hwN hcA
    simp [create_main, Create.stack_exists, h1, h2, h3, h4, h5, h6,
      hcN, hwN, hcA, hasUploadOp, isUpload, app_ne_network, network_ne_app]
  · intro hcN hwN hcA hwA
    simp [create_main, Create.stack_exists, h1, h2, h3, h4, h5, h6,
      hcN, hwN, hcA, hwA, hasUploadOp, isUpload, app_ne_network, network_ne_app]

/-- Environment in which every create-flow stage succeeds. -/
def envCreateHappy : CreateEnv where
  describePre := fun _ => DescribeResult.notFound
  describePost := fun _ => DescribeResult.ok "CREATE_COMPLETE"
    [⟨"S3BucketName", "udagram-bucket"⟩, ⟨"LoadBalancerURL", "http://lb"⟩]
  fileReadable := fun _ => true
  createAccepted := fun _ => true
  waitSucceeds := fun _ => true
  uploadResult := UploadResult.accepted

/-- Environment in which the network stack creation submission is
rejected. -/
def envCreateNetRejected : CreateEnv :=
  { envCreateHappy with createAccepted := fun _ => false }

/-- Witness for C6: on the all-success environment the trace orders the
network create, network wait, application create, application wait, and on
the rejected-network-create environment the run exits 1 without issuing
the network wait or the application create. -/
theorem create_sequential_and_gated_witness :
    ((create_main envCreateHappy).1 = 0 ∧
     precedes (create_main envCreateHappy).2 (Op.createStack NETWORK_STACK_NAME)
       (Op.waitCreate NETWORK_STACK_NAME) = true ∧
     precedes (create_main envCreateHappy).2 (Op.waitCreate NETWORK_STACK_NAME)
       (Op.createStack APP_STACK_NAME) = true ∧
     precedes (create_main envCreateHappy).2 (Op.createStack APP_STACK_NAME)
       (Op.waitCreate APP_STACK_NAME) = true) ∧
    ((create_main envCreateNetRejected).1 = 1 ∧
     Op.waitCreate NETWORK_STACK_NAME ∉ (create_main envCreateNetRejected).2 ∧
     Op.createStack APP_STACK_NAME ∉ (create_main envCreateNetRejected).2) :=
  ⟨(create_sequential_and_gated envCreateHappy
      ⟨rfl, rfl, rfl, rfl, rfl, rfl⟩).1 rfl rfl rfl rfl,
   (create_sequential_and_gated envCreateNetRejected
      ⟨rfl, rfl, rfl, rfl, rfl, rfl⟩).2.1 rfl⟩

/-- C7: in the delete flow with both stacks present, a confirmed run with
a resolvable bucket name empties the bucket (objects, then versions)
strictly before any stack deletion request, then deletes the application
stack and waits on it, then deletes the network stack and waits on it,
and exits 0; and when the bucket emptying fails the run exits with code 1
with no stack deletion request in its trace. -/
theorem delete_ordered_and_gated (env : DeleteEnv) (b : String) (bk : Bucket)
    (hc : confirm_deletion env.answer = true)
    (hA : Delete.stack_exists (env.describe APP_STACK_NAME) = .ok true)
    (hN : Delete.stack_exists (env.describe NETWORK_STACK_NAME) = .ok true)
    (hb : get_stack_output (env.describe APP_STACK_NAME) "S3BucketName" = some b)
    (hbne : strEmpty b = false)
    (hbk : env.bucket = some bk) :
    (env.s3Fails = false →
     env.deleteAccepted APP_STACK_NAME = true →
     env.waitSucceeds APP_STACK_NAME = true →
     env.deleteAccepted NETWORK_STACK_NAME = true →
     env.waitSucceeds NETWORK_STACK_NAME = true →
       (delete_main env).1 = 0 ∧
       precedes (delete_main env).2 (Op.deleteAllObjects b)
         (Op.deleteAllVersions b) = true ∧
       precedes (delete_main env).2 (Op.deleteAllVersions b)
         (Op.deleteStack APP_STACK_NAME) = true ∧
       precedes (delete_main env).2 (Op.deleteStack APP_STACK_NAME)
         (Op.waitDelete APP_STACK_NAME) = true ∧
       precedes (delete_main env).2 (Op.waitDelete APP_STACK_NAME)
         (Op.deleteStack NETWORK_STACK_NAME) = true ∧
       precedes (delete_main env).2 (Op.deleteStack NETWORK_STACK_NAME)
         (Op.waitDelete NETWORK_STACK_NAME) = true) ∧
    (env.s3Fails = true →
       (delete_main env).1 = 1 ∧ noDeleteOps (delete_main env).2 = true) := by
  constructor
  · intro hs3 hdA hwA hdN hwN
    simp [delete_main, empty_s3_bucket, hc, hA, hN, hb, hbne, hbk,
      hs3, hdA, hwA, hdN, hwN, precedes, opIdx, List.append_assoc,
      app_ne_network, network_ne_app]
  · intro hs3
    simp [delete_main, empty_s3_bucket, hc, hA, hN, hb, hbne, hbk, hs3,
      noDeleteOps, isDeleteOp]

/-- Environment for a full successful delete run with both stacks present
and a versioned, non-empty backing bucket. -/
def envDeleteHappy : DeleteEnv where
  answer := "yes"
  describe := fun n =>
    if n = APP_STACK_NAME then
      DescribeResult.ok "CREATE_COMPLETE" [⟨"S3BucketName", "udagram-bucket"⟩]
    else DescribeResult.ok "CREATE_COMPLETE" []
  bucket := some ⟨["index.html"], ["v1", "v2"]⟩
  s3Fails := false
  deleteAccepted := fun _ => true
  waitSucceeds := fun _ => true

/-- Environment identical to the successful delete run except the bulk S3
deletion raises. -/
def envDeleteS3Broken : DeleteEnv :=
  { envDeleteHappy with s3Fails := true }

/-- Witness for C7: the successful environment yields exit 0 with the
bucket emptied before the application stack deletion and the network
stack deleted last, and the broken-S3 environment yields exit 1 with no
deletion request. -/
theorem delete_ordered_and_gated_witness :
    ((delete_main envDeleteHappy).1 = 0 ∧
     precedes (delete_main envDeleteHappy).2 (Op.deleteAllObjects "udagram-bucket")
       (Op.deleteAllVersions "udagram-bucket") = true ∧
     precedes (delete_main envDeleteHappy).2 (Op.deleteAllVersions "udagram-bucket")
       (Op.deleteStack APP_STACK_NAME) = true ∧
     precedes (delete_main envDeleteHappy).2 (Op.deleteStack APP_STACK_NAME)
       (Op.waitDelete APP_STACK_NAME) = true ∧
     precedes (delete_main envDeleteHappy).2 (Op.waitDelete APP_STACK_NAME)
       (Op.deleteStack NETWORK_STACK_NAME) = true ∧
     precedes (delete_main envDeleteHappy).2 (Op.deleteStack NETWORK_STACK_NAME)
       (Op.waitDelete NETWORK_STACK_NAME) = true) ∧
    ((delete_main envDeleteS3Broken).1 = 1 ∧
     noDeleteOps (delete_main envDeleteS3Broken).2 = true) :=
  ⟨(delete_ordered_and_gated envDeleteHappy "udagram-bucket" ⟨["index.html"], ["v1", "v2"]⟩
      (by decide) (by simp [envDeleteHappy, Delete.stack_exists, APP_STACK_NAME])
      (by simp [envDeleteHappy, Delete.stack_exists, NETWORK_STACK_NAME, APP_STACK_NAME])
      (by simp [envDeleteHappy, get_stack_output, lookupOutput, APP_STACK_NAME])
      rfl rfl).1 rfl rfl rfl rfl rfl,
   (delete_ordered_and_gated envDeleteS3Broken "udagram-bucket" ⟨["index.html"], ["v1", "v2"]⟩
      (by decide) (by simp [envDeleteS3Broken, envDeleteHappy, Delete.stack_exists, APP_STACK_NAME])
      (by simp [envDeleteS3Broken, envDeleteHappy, Delete.stack_exists, NETWORK_STACK_NAME, APP_STACK_NAME])
      (by simp [envDeleteS3Broken, envDeleteHappy, get_stack_output, lookupOutput, APP_STACK_NAME])
      rfl rfl).2 rfl⟩

/-- C8: an upload failure is non-fatal.  When both stacks reach terminal
success and the bucket name resolves, the trace contains the single
upload attempt, upload_to_s3 reports the failure (missing local file or
remote rejection) as False, and the run still reaches the final summary
lookup and exits with code 0. -/
theorem upload_failure_nonfatal (env : CreateEnv) (hpre : CreatePreOk env)
    (hcN : env.createAccepted NETWORK_STACK_NAME = true)
    (hwN : env.waitSucceeds NETWORK_STACK_NAME = true)
    (hcA : env.createAccepted APP_STACK_NAME = true)
    (hwA : env.waitSucceeds APP_STACK_NAME = true)
    (hb : truthyStr (get_stack_output (env.describePost APP_STACK_NAME) "S3BucketName") = true)
    (hu : env.uploadResult ≠ UploadResult.accepted) :
    upload_to_s3 env.uploadResult = false ∧
    (create_main env).1 = 0 ∧
    hasUploadOp (create_main env).2 = true := by
  obtain ⟨h1, h2, h3, h4, h5, h6⟩ := hpre
  refine ⟨?_, ?_, ?_⟩
  · cases h : env.uploadResult
    · exact absurd h hu
    · rfl
    · rfl
  · simp [create_main, Create.stack_exists, h1, h2, h3, h4, h5, h6,
      hcN, hwN, hcA, hwA]
  · cases hbv : get_stack_output (env.describePost APP_STACK_NAME) "S3BucketName" with
    | none => rw [hbv] at hb; simp [truthyStr] at hb
    | some b =>
        rw [hbv] at hb
        have hbne : strEmpty b = false := by
          simpa [truthyStr] using hb
        simp [create_main, Create.stack_exists, h1, h2, h3, h4, h5, h6,
          hcN, hwN, hcA, hwA, hbv, hbne, hasUploadOp, isUpload]

/-- Environment in which the stacks are created successfully but the
static content file is missing locally. -/
def envUploadBroken : CreateEnv :=
  { envCreateHappy with uploadResult := UploadResult.fileNotFound }

/-- Witness for C8: with a missing local file the upload reports failure
yet the run exits 0 and the upload attempt is in the trace. -/
theorem upload_failure_nonfatal_witness :
    upload_to_s3 envUploadBroken.uploadResult = false ∧
    (create_main envUploadBroken).1 = 0 ∧
    hasUploadOp (create_main envUploadBroken).2 = true :=
  upload_failure_nonfatal envUploadBroken
    ⟨rfl, rfl, rfl, rfl, rfl, rfl⟩ rfl rfl rfl rfl
    (by decide)
    (by decide)

end Theorems
